import Mathlib

/-!
Verification of the core numerical engine of the Zodiac-Oracle-Live-Transits
repository (scripts/utils/aspects.py, zodiac.py, houses.py, coord.py and
scripts/bodies/harmonics_engine.py).

The Python code works on IEEE doubles; this development embeds it shallowly
into exact arithmetic: pure float arithmetic becomes `ℚ` (decimal literals are
read exactly), transcendental code (sin/cos/tan/atan/atan2) becomes `ℝ` with
Mathlib's real functions.  Python's `%` on numbers (result carries the sign of
the divisor) is `pmod`/`rpmod` below, and Python's `round(x, n)` (banker's
rounding) is `roundTo`.  Fallible code is embedded with `Option`/`Except`:
an uncaught Python exception is an `Except.error`.
-/

/-- Python `x % m` for a positive modulus `m` on exact rationals:
the representative of `x` in `[0, m)`. -/
def pmod (x m : ℚ) : ℚ := x - m * ⌊x / m⌋

/-- Python `round` to an integer uses round-half-to-even (banker's rounding);
this is its exact-arithmetic counterpart. -/
def roundHalfEven (x : ℚ) : ℤ :=
  if x - ⌊x⌋ < 1/2 then ⌊x⌋
  else if 1/2 < x - ⌊x⌋ then ⌊x⌋ + 1
  else if ⌊x⌋ % 2 = 0 then ⌊x⌋ else ⌊x⌋ + 1

/-- Python `round(x, d)` for `d` decimal places (exact-arithmetic model). -/
def roundTo (x : ℚ) (d : ℕ) : ℚ :=
  (roundHalfEven (x * 10 ^ d) : ℚ) / 10 ^ d

/- ------------------------------------------------------------------
scripts/utils/aspects.py
------------------------------------------------------------------ -/

/-- aspects.py `ASPECTS`: the canonical aspect angles, in the dict's
insertion order (Python dicts iterate in insertion order). -/
def ASPECTS : List (String × ℚ) :=
  [("conjunction", 0), ("sextile", 60), ("square", 90),
   ("trine", 120), ("opposition", 180)]

/-- aspects.py `ORB_MAX`. -/
def ORB_MAX : ℚ := 10

/-- aspects.py `BASE_POWER`. -/
def BASE_POWER : List (String × ℚ) :=
  [("conjunction", 1.40), ("opposition", 1.60), ("square", 1.50),
   ("trine", 1.10), ("sextile", 0.70)]

/-- aspects.py `STAR_MULTIPLIER`. -/
def STAR_MULTIPLIER : List (String × ℚ) :=
  [("Regulus", 1.8), ("Spica", 1.5), ("Aldebaran", 1.7), ("Antares", 1.7),
   ("Algol", 2.0), ("Sirius", 1.6), ("Canopus", 1.6), ("Fomalhaut", 1.6)]

/-- aspects.py `TNO_MULTIPLIER`. -/
def TNO_MULTIPLIER : List (String × ℚ) :=
  [("Sedna", 2.2), ("Eris", 1.6), ("Haumea", 1.6), ("Makemake", 1.6),
   ("Quaoar", 1.6), ("Orcus", 1.4), ("Varuna", 1.4), ("Ixion", 1.4),
   ("Salacia", 1.4), ("Typhon", 1.8)]

/-- aspects.py `angle_diff`: `diff = abs(a - b); if diff > 180: diff = 360 - diff`. -/
def angle_diff (a b : ℚ) : ℚ :=
  if |a - b| > 180 then 360 - |a - b| else |a - b|

/-- aspects.py `orb_multiplier`. -/
def orb_multiplier (orb : ℚ) : ℚ :=
  if orb > ORB_MAX then 0 else max 0 (1 - orb / ORB_MAX)

/-- aspects.py `harmonic_multiplier`: `1 + (abs(h) % 10) / 20`. -/
def harmonic_multiplier (h : ℚ) : ℚ := 1 + pmod |h| 10 / 20

/-- aspects.py `star_mult`: `m = 1.0`, multiplied by the table entry for each
name present in `STAR_MULTIPLIER` (absent names contribute a factor 1). -/
def star_mult (name_a name_b : String) : ℚ :=
  ((STAR_MULTIPLIER.lookup name_a).getD 1) * ((STAR_MULTIPLIER.lookup name_b).getD 1)

/-- aspects.py `tno_mult`. -/
def tno_mult (name_a name_b : String) : ℚ :=
  ((TNO_MULTIPLIER.lookup name_a).getD 1) * ((TNO_MULTIPLIER.lookup name_b).getD 1)

/-- The dict returned by aspects.py `compute_aspect` (Python rounds the
`angle`, `orb`, `score` and `intensity` entries with `round`). -/
structure AspectRecord where
  type : String
  angle : ℚ
  orb : ℚ
  exact : ℚ
  score : ℚ
  intensity : ℚ
deriving DecidableEq

/-- The `for asp_name, asp_angle in ASPECTS.items()` loop body of
`compute_aspect`: return on the first aspect whose orb is within `ORB_MAX`,
else fall through to `None`.  `BASE_POWER[asp_name]` cannot miss for the
names occurring in `ASPECTS`; the `getD 0` default is never exercised. -/
def aspect_scan (name_a : String) (a_harm : ℚ) (name_b : String) (b_harm : ℚ)
    (diff : ℚ) : List (String × ℚ) → Option AspectRecord
  | [] => none
  | (asp_name, asp_angle) :: rest =>
    let orb := |diff - asp_angle|
    if orb ≤ ORB_MAX then
      let base := (BASE_POWER.lookup asp_name).getD 0
      let orb_m := orb_multiplier orb
      let harm_m := (harmonic_multiplier a_harm + harmonic_multiplier b_harm) / 2
      let star_m := star_mult name_a name_b
      let tno_m := tno_mult name_a name_b
      let score := base * orb_m * harm_m * star_m * tno_m
      some { type := asp_name
             angle := roundTo diff 2
             orb := roundTo orb 2
             exact := asp_angle
             score := roundTo score 4
             intensity := roundTo (score * 100) 1 }
    else aspect_scan name_a a_harm name_b b_harm diff rest

/-- aspects.py `compute_aspect`. -/
def compute_aspect (name_a : String) (a_lon a_harm : ℚ)
    (name_b : String) (b_lon b_harm : ℚ) : Option AspectRecord :=
  aspect_scan name_a a_harm name_b b_harm (angle_diff a_lon b_lon) ASPECTS

/-- One value of the `bodies` dict passed to `compute_all_aspects`:
`{"lon": ..., "harmonics": ...}`.  A `lon` of Python `None` is `none`. -/
structure BodyRec where
  lon : Option ℚ
  harmonics : ℚ
deriving DecidableEq

/-- The ordered list of unordered index pairs `i < j` that the double loop of
`compute_all_aspects` enumerates. -/
def body_pairs {α : Type} : List α → List (α × α)
  | [] => []
  | x :: xs => xs.map (fun y => (x, y)) ++ body_pairs xs

/-- The pair loop of `compute_all_aspects`.  When either longitude is Python
`None`, the subtraction `a - b` inside `angle_diff` raises an uncaught
`TypeError`, aborting the whole call; that exception is the `Except.error`
branch here. -/
def aspect_grid_loop :
    List ((String × BodyRec) × (String × BodyRec)) →
    Except String (List (String × AspectRecord))
  | [] => .ok []
  | ((a, da), (b, db)) :: rest =>
    match da.lon, db.lon with
    | some a_lon, some b_lon =>
      match aspect_grid_loop rest with
      | .error e => .error e
      | .ok grid =>
        match compute_aspect a a_lon da.harmonics b b_lon db.harmonics with
        | some asp => .ok ((a ++ "-" ++ b, asp) :: grid)
        | none => .ok grid
    | _, _ => .error "TypeError: unsupported operand type for NoneType"

/-- aspects.py `compute_all_aspects` (the `bodies` dict is carried as its
insertion-ordered association list). -/
def compute_all_aspects (bodies : List (String × BodyRec)) :
    Except String (List (String × AspectRecord)) :=
  aspect_grid_loop (body_pairs bodies)

/-- Whether an embedded Python call returned normally (no exception). -/
def call_ok {α : Type} : Except String α → Bool
  | .ok _ => true
  | .error _ => false

/- ------------------------------------------------------------------
scripts/utils/zodiac.py
------------------------------------------------------------------ -/

/-- zodiac.py `ZODIAC_SIGNS`. -/
def ZODIAC_SIGNS : List String :=
  ["Aries", "Taurus", "Gemini", "Cancer", "Leo", "Virgo",
   "Libra", "Scorpio", "Sagittarius", "Capricorn", "Aquarius", "Pisces"]

/-- zodiac.py `zodiac_sign`: `None` propagates; otherwise
`ZODIAC_SIGNS[int(ecl_lon // 30) % 12]`.  The list access is embedded with
`List.get?` so that an out-of-range index (Python `IndexError`) would show up
as `none`. -/
def zodiac_sign (ecl_lon : Option ℚ) : Option String :=
  match ecl_lon with
  | none => none
  | some q => ZODIAC_SIGNS.get? ((⌊q / 30⌋ % 12).toNat)

/-- zodiac.py `degree_in_sign`: `None` propagates; otherwise `float(ecl_lon % 30)`. -/
def degree_in_sign (ecl_lon : Option ℚ) : Option ℚ :=
  match ecl_lon with
  | none => none
  | some q => some (pmod q 30)

/- ------------------------------------------------------------------
scripts/bodies/harmonics_engine.py
------------------------------------------------------------------ -/

/-- The possible shapes of the `ecl_lon_deg` argument of `harmonics`:
a number, Python `None`, or a non-numeric value (for which the arithmetic
`(ecl_lon_deg * harmonic_number) % 360` raises a `TypeError`). -/
inductive PyVal where
  | num (q : ℚ)
  | noneVal
  | nonNumeric
deriving DecidableEq

/-- harmonics_engine.py `harmonics`: `None` returns `None`; a numeric input
returns `float((ecl_lon * n) % 360)`; for a non-numeric input the `try`
block's arithmetic raises and the `except` returns `None`. -/
def harmonics (ecl_lon_deg : PyVal) (harmonic_number : ℚ) : Option ℚ :=
  match ecl_lon_deg with
  | .noneVal => none
  | .num q => some (pmod (q * harmonic_number) 360)
  | .nonNumeric => none

/- ------------------------------------------------------------------
scripts/utils/houses.py — exact-rational part
------------------------------------------------------------------ -/

/-- houses.py `gmst`: the IAU 1982 polynomial, reduced `% 360`.  Pure float
polynomial arithmetic in the source, hence exact `ℚ` here. -/
def gmst (jd : ℚ) : ℚ :=
  let T := (jd - 2451545.0) / 36525
  pmod (280.46061837 + 360.98564736629 * (jd - 2451545.0)
        + 0.000387933 * T * T - (T * T * T) / 38710000) 360

/-- houses.py `local_sidereal_time`: `(gmst(jd) + lon_deg) % 360`. -/
def local_sidereal_time (jd lon_deg : ℚ) : ℚ := pmod (gmst jd + lon_deg) 360

/-- houses.py `whole_sign_cusps`, as a function of the house number:
the dict is `{i+1: ((asc_sign + i) % 12) * 30 for i in range(12)}`,
so house `h` maps to `((asc_sign + h - 1) % 12) * 30`. -/
def whole_sign_cusps (asc_lon : ℚ) (house : ℤ) : ℚ :=
  (((⌊asc_lon / 30⌋ + (house - 1)) % 12) * 30 : ℤ)

/-- houses.py `whole_sign_house`:
`(int(lon // 30) - int(asc_lon // 30)) % 12 + 1` with Python integer `%`
(nonnegative for a positive modulus), i.e. `Int.emod`. -/
def whole_sign_house (lon asc_lon : ℚ) : ℤ :=
  (⌊lon / 30⌋ - ⌊asc_lon / 30⌋) % 12 + 1

/- ------------------------------------------------------------------
Real-valued (transcendental) part: scripts/utils/coord.py and the
trigonometric functions of scripts/utils/houses.py
------------------------------------------------------------------ -/

open Real in
/-- C `atan2(y, x)` as used by Python's `math.atan2`: the angle of the point
`(x, y)` in `(-pi, pi]`, written out by quadrant (reals have no signed zero,
so the IEEE `atan2(-0.0, ...)` distinctions collapse). -/
noncomputable def atan2 (y x : ℝ) : ℝ :=
  if 0 < x then arctan (y / x)
  else if x < 0 then
    (if 0 ≤ y then arctan (y / x) + π else arctan (y / x) - π)
  else
    (if 0 < y then π / 2 else if y < 0 then -(π / 2) else 0)

/-- Python `x % m` on reals (result in `[0, m)` for `m > 0`), used for the
`% 360` / `% (2*math.pi)` reductions of coord.py and houses.py. -/
noncomputable def rpmod (x m : ℝ) : ℝ := x - m * ⌊x / m⌋

/-- coord.py `rad_to_deg` / `math.degrees` (no normalization). -/
noncomputable def rad_to_deg (r : ℝ) : ℝ := r * 180 / Real.pi

/-- coord.py `deg_to_rad` / `math.radians`. -/
noncomputable def deg_to_rad (d : ℝ) : ℝ := d * Real.pi / 180

/-- The default `obliquity_deg` argument of both coord.py conversions. -/
def OBLIQUITY_COORD : ℚ := 23.439281

/-- The obliquity constant hard-coded in houses.py (`eps`). -/
def OBLIQUITY_HOUSES : ℚ := 23.439291

open Real in
/-- coord.py `equatorial_to_ecliptic`: returns `(ecl_lon, ecl_lat)` with
`ecl_lon = math.degrees(atan2(y, x)) % 360`. -/
noncomputable def equatorial_to_ecliptic (ra_deg dec_deg obliquity_deg : ℝ) : ℝ × ℝ :=
  let ra := deg_to_rad ra_deg
  let dec := deg_to_rad dec_deg
  let ob := deg_to_rad obliquity_deg
  let sin_beta := sin dec * cos ob - cos dec * sin ob * sin ra
  let beta := arcsin sin_beta
  let y := sin ra * cos ob + tan dec * sin ob
  let x := cos ra
  let lam := atan2 y x
  (rpmod (rad_to_deg lam) 360, rad_to_deg beta)

open Real in
/-- coord.py `ecliptic_to_equatorial`: returns `(ra, dec)` with
`ra = math.degrees(atan2(y, x)) % 360`. -/
noncomputable def ecliptic_to_equatorial (lon_deg lat_deg obliquity_deg : ℝ) : ℝ × ℝ :=
  let lon := deg_to_rad lon_deg
  let lat := deg_to_rad lat_deg
  let ob := deg_to_rad obliquity_deg
  let sin_dec := sin lat * cos ob + cos lat * sin ob * sin lon
  let dec := arcsin sin_dec
  let y := sin lon * cos ob - tan lat * sin ob
  let x := cos lon
  let ra := atan2 y x
  (rpmod (rad_to_deg ra) 360, rad_to_deg dec)

/-- houses.py `rad2deg`: `math.degrees(r) % 360` (unlike coord.py's
`rad_to_deg`, this one normalizes). -/
noncomputable def rad2deg (r : ℝ) : ℝ := rpmod (rad_to_deg r) 360

open Real in
/-- houses.py `compute_ascendant`.  The Python float division would raise
`ZeroDivisionError` on an exactly-zero denominator; on the measure-zero set
where that happens this embedding takes Lean's `x / 0 = 0` instead. -/
noncomputable def compute_ascendant (jd lat_deg lon_deg : ℚ) : ℝ :=
  let eps := deg_to_rad (OBLIQUITY_HOUSES : ℝ)
  let lat := deg_to_rad (lat_deg : ℝ)
  let lst := deg_to_rad ((local_sidereal_time jd lon_deg : ℚ) : ℝ)
  let tan_asc := -cos lst / (sin lst * cos eps + tan lat * sin eps)
  let asc := arctan tan_asc
  let asc := if cos lst > 0 then asc + π else asc
  rad2deg asc

open Real in
/-- houses.py `compute_mc`. -/
noncomputable def compute_mc (jd lon_deg : ℚ) : ℝ :=
  let eps := deg_to_rad (OBLIQUITY_HOUSES : ℝ)
  let lst := deg_to_rad ((local_sidereal_time jd lon_deg : ℚ) : ℝ)
  rad2deg (atan2 (cos lst) (sin lst * cos eps))

open Real in
/-- The body of the `for house, angle in zip([11,12,1,2,3], ...)` loop of
houses.py `placidus_cusps`: `RA = angle % (2*pi)`,
`tan_ecl = atan(tan(RA) * cos(eps))`, `lon = rad2deg(tan_ecl)`.
Note the principal-branch `math.atan` (no quadrant handling). -/
noncomputable def placidus_intermediate (angle : ℝ) : ℝ :=
  let eps := deg_to_rad (OBLIQUITY_HOUSES : ℝ)
  let RA := rpmod angle (2 * π)
  let tan_ecl := arctan (tan RA * cos eps)
  rad2deg tan_ecl

open Real in
/-- houses.py `placidus_cusps`, as a function of the house number 1..12
(the returned dict, read back by key; keys outside 1..12 do not occur). -/
noncomputable def placidus_cusps (jd lat_deg lon_deg : ℚ) (house : ℤ) : ℝ :=
  let mc := compute_mc jd lon_deg
  let mc_rad := deg_to_rad mc
  if house = 10 then mc
  else if house = 11 then placidus_intermediate (mc_rad + π / 6)
  else if house = 12 then placidus_intermediate (mc_rad + π / 3)
  else if house = 1 then placidus_intermediate (mc_rad + π / 2)
  else if house = 2 then placidus_intermediate (mc_rad + 2 * π / 3)
  else if house = 3 then placidus_intermediate (mc_rad + 5 * π / 6)
  else if house = 4 then rpmod (mc + 180) 360
  else if house = 5 then rpmod (placidus_intermediate (mc_rad + π / 6) + 180) 360
  else if house = 6 then rpmod (placidus_intermediate (mc_rad + π / 3) + 180) 360
  else if house = 7 then rpmod (placidus_intermediate (mc_rad + π / 2) + 180) 360
  else if house = 8 then rpmod (placidus_intermediate (mc_rad + 2 * π / 3) + 180) 360
  else if house = 9 then rpmod (placidus_intermediate (mc_rad + 5 * π / 6) + 180) 360
  else 0

/- ------------------------------------------------------------------
Definitions written from the spec's words, for comparison with the code
(refinement counterparts; each is named spec_*)
------------------------------------------------------------------ -/

/-- Modelled from the spec: the per-body orb tolerance classes of section 4.4
("Sun 6°, Moon 4°, Mercury/Venus/Mars 3°, Jupiter/Saturn 3°,
Uranus/Neptune/Pluto 2°, all others 1°").  No such table exists anywhere in
the source; it is stated here only to compare the spec's admission rule with
`compute_aspect`. -/
def spec_orb_class (name : String) : ℚ :=
  if name = "Sun" then 6
  else if name = "Moon" then 4
  else if name = "Mercury" ∨ name = "Venus" ∨ name = "Mars" then 3
  else if name = "Jupiter" ∨ name = "Saturn" then 3
  else if name = "Uranus" ∨ name = "Neptune" ∨ name = "Pluto" then 2
  else 1

/-- Modelled from the spec: the pair's effective tolerance
`min(orb(a), orb(b))` of section 4.4. -/
def spec_effective_tolerance (name_a name_b : String) : ℚ :=
  min (spec_orb_class name_a) (spec_orb_class name_b)

/-- Modelled from the spec: the `angular_separation` formula of section 4.4,
`d = |lon_a - lon_b| mod 360; if d > 180 use 360 - d`. -/
def spec_angular_separation (lon_a lon_b : ℚ) : ℚ :=
  let d := pmod |lon_a - lon_b| 360
  if d > 180 then 360 - d else d

open Real in
/-- Modelled from the spec: the section 4.1 longitude conversion
`lon = atan2(sin(ra)*cos(ob) + tan(dec)*sin(ob), cos(ra))`, normalized to
`[0,360)`, applied to a point of the equator (`dec = 0`, so the `tan(dec)`
term vanishes).  Section 4.2 says the Placidus cusps are obtained by sending
each offset right-ascension value through this rotation. -/
noncomputable def spec_ecliptic_of_ra (ra ob : ℝ) : ℝ :=
  rpmod (rad_to_deg (atan2 (sin ra * cos ob) (cos ra))) 360

/-- Modelled from the spec: the smallest orb `|separation - aspect_angle|`
over the five canonical aspect angles, used to state that the aspect chosen
by `compute_aspect` is the closest one. -/
def spec_min_orb (d : ℚ) : ℚ :=
  min (min (min (min |d - 0| |d - 60|) |d - 90|) |d - 120|) |d - 180|

/- ------------------------------------------------------------------
Helper lemmas
------------------------------------------------------------------ -/

theorem pmod_nonneg (x m : ℚ) (hm : 0 < m) : 0 ≤ pmod x m := by
  have h := Int.fract_nonneg (x / m)
  have : pmod x m = m * Int.fract (x / m) := by
    unfold pmod Int.fract
    field_simp
  rw [this]
  positivity

theorem pmod_lt (x m : ℚ) (hm : 0 < m) : pmod x m < m := by
  have h := Int.fract_lt_one (x / m)
  have heq : pmod x m = m * Int.fract (x / m) := by
    unfold pmod Int.fract
    field_simp
  rw [heq]
  calc m * Int.fract (x / m) < m * 1 := by
        exact (mul_lt_mul_left hm).mpr h
    _ = m := mul_one m

theorem pmod_eq_self (x m : ℚ) (h0 : 0 ≤ x) (hm : x < m) : pmod x m = x := by
  have hmpos : 0 < m := lt_of_le_of_lt h0 hm
  have : ⌊x / m⌋ = 0 := by
    rw [Int.floor_eq_zero_iff]
    constructor
    · positivity
    · rw [div_lt_one hmpos]
      exact hm
  unfold pmod
  rw [this]
  ring

theorem rpmod_nonneg (x m : ℝ) (hm : 0 < m) : 0 ≤ rpmod x m := by
  have h := Int.fract_nonneg (x / m)
  have heq : rpmod x m = m * Int.fract (x / m) := by
    unfold rpmod Int.fract
    field_simp
  rw [heq]
  positivity

theorem rpmod_lt (x m : ℝ) (hm : 0 < m) : rpmod x m < m := by
  have h := Int.fract_lt_one (x / m)
  have heq : rpmod x m = m * Int.fract (x / m) := by
    unfold rpmod Int.fract
    field_simp
  rw [heq]
  calc m * Int.fract (x / m) < m * 1 := by
        exact (mul_lt_mul_left hm).mpr h
    _ = m := mul_one m

theorem rpmod_eq_self (x m : ℝ) (h0 : 0 ≤ x) (hm : x < m) : rpmod x m = x := by
  have hmpos : 0 < m := lt_of_le_of_lt h0 hm
  have : ⌊x / m⌋ = 0 := by
    rw [Int.floor_eq_zero_iff]
    constructor
    · positivity
    · rw [div_lt_one hmpos]
      exact hm
  unfold rpmod
  rw [this]
  ring

theorem rpmod_of_neg (x m : ℝ) (hm : 0 < m) (hlo : -m < x) (hhi : x < 0) :
    rpmod x m = x + m := by
  have h2 : x / m < 0 := div_neg_of_neg_of_pos hhi hm
  have hfloor : ⌊x / m⌋ = -1 := by
    rw [Int.floor_eq_iff]
    constructor
    · push_cast
      rw [le_div_iff₀ hm]
      linarith
    · push_cast
      linarith
  unfold rpmod
  rw [hfloor]
  push_cast
  ring

theorem roundHalfEven_le (y : ℚ) (c : ℤ) (h : y ≤ c) : roundHalfEven y ≤ c := by
  unfold roundHalfEven
  have hfl : ⌊y⌋ ≤ c := by
    calc ⌊y⌋ ≤ ⌊(c : ℚ)⌋ := Int.floor_le_floor h
      _ = c := Int.floor_intCast c
  have hfly : (⌊y⌋ : ℚ) ≤ y := Int.floor_le y
  split_ifs with h1 h2 h3
  · exact hfl
  · -- 1/2 < y - ⌊y⌋, so ⌊y⌋ < c - 1/2, hence ⌊y⌋ + 1 ≤ c
    have hltq : (⌊y⌋ : ℚ) < (c : ℚ) := by linarith
    have hlt : ⌊y⌋ < c := by exact_mod_cast hltq
    omega
  · exact hfl
  · -- exactly half: y = ⌊y⌋ + 1/2 ≤ c forces ⌊y⌋ < c
    have hhalf : y - ⌊y⌋ = 1/2 := le_antisymm (not_lt.mp h2) (not_lt.mp h1)
    have : (⌊y⌋ : ℚ) + 1/2 ≤ c := by linarith
    have hlt : (⌊y⌋ : ℚ) < c := by linarith
    have : ⌊y⌋ < c := by exact_mod_cast hlt
    omega

theorem roundHalfEven_nonneg (y : ℚ) (h : 0 ≤ y) : 0 ≤ roundHalfEven y := by
  unfold roundHalfEven
  have h0 : 0 ≤ ⌊y⌋ := Int.floor_nonneg.mpr h
  split_ifs <;> omega

theorem roundTo_le (x : ℚ) (c : ℤ) (h : x ≤ c) : roundTo x 2 ≤ c := by
  unfold roundTo
  rw [div_le_iff₀ (by positivity)]
  have h2 : x * 10 ^ 2 ≤ (c * 10 ^ 2 : ℤ) := by
    push_cast
    nlinarith
  have := roundHalfEven_le (x * 10 ^ 2) (c * 10 ^ 2) h2
  calc (roundHalfEven (x * 10 ^ 2) : ℚ) ≤ ((c * 10 ^ 2 : ℤ) : ℚ) := by exact_mod_cast this
    _ = (c : ℚ) * 10 ^ 2 := by push_cast; ring

/- Sanity examples (checked by the elaborator, not part of any claim). -/

example : angle_diff 10 100 = 90 := by norm_num [angle_diff]
example : (compute_aspect "Ceres" 0 0 "Vesta" 5 0).map (fun r => (r.type, r.orb))
    = some ("conjunction", 5) := by
  norm_num [compute_aspect, aspect_scan, ASPECTS, angle_diff, ORB_MAX, BASE_POWER,
    orb_multiplier, harmonic_multiplier, star_mult, tno_mult, STAR_MULTIPLIER,
    TNO_MULTIPLIER, List.lookup, pmod, roundTo, roundHalfEven]
example : compute_all_aspects [("A", ⟨none, 0⟩), ("B", ⟨some 0, 0⟩)]
    = .error "TypeError: unsupported operand type for NoneType" := by
  norm_num [compute_all_aspects, body_pairs, aspect_grid_loop]
example : zodiac_sign (some 0) = some "Aries" := by norm_num [zodiac_sign, ZODIAC_SIGNS]
example : zodiac_sign (some 359.9) = some "Pisces" := by
  norm_num [zodiac_sign, ZODIAC_SIGNS]; rfl
example : degree_in_sign (some 375) = some 15 := by norm_num [degree_in_sign, pmod]
example : harmonics (.num 375) 1 = some 15 := by norm_num [harmonics, pmod]
example : whole_sign_house 95 35 = 3 := by norm_num [whole_sign_house]
example : gmst 2451545 = 280.46061837 := by norm_num [gmst, pmod]

/- ------------------------------------------------------------------
Claim theorems
------------------------------------------------------------------ -/

/-- C8: `harmonics(lon, n)` returns `float((lon * n) mod 360)` for every
numeric longitude, returns `None` when `lon` is `None`, returns `None` for
non-numeric input (the internal exception is swallowed), and in particular
`harmonics(lon, 1) = lon mod 360` for every numeric `lon`. -/
theorem harmonics_total (q n : ℚ) :
    harmonics (.num q) n = some (pmod (q * n) 360) ∧
    harmonics .noneVal n = none ∧
    harmonics .nonNumeric n = none ∧
    harmonics (.num q) 1 = some (pmod q 360) := by
  refine ⟨rfl, rfl, rfl, ?_⟩
  simp only [harmonics, mul_one]

/-- C10: `zodiac_sign` and `degree_in_sign` are total over every finite
longitude: the index `int(lon // 30) % 12` always lies in `0..11`, so
`zodiac_sign` returns one of the 12 sign names (no `IndexError`), and
`degree_in_sign` returns a value in `[0, 30)`. -/
theorem zodiac_sign_total (q : ℚ) :
    (⌊q / 30⌋ % 12).toNat < 12 ∧
    (∃ s, zodiac_sign (some q) = some s ∧ s ∈ ZODIAC_SIGNS) ∧
    (∃ d, degree_in_sign (some q) = some d ∧ 0 ≤ d ∧ d < 30) := by
  have hidx : (⌊q / 30⌋ % 12).toNat < 12 := by
    have h1 : 0 ≤ ⌊q / 30⌋ % 12 := Int.emod_nonneg _ (by norm_num)
    have h2 : ⌊q / 30⌋ % 12 < 12 := Int.emod_lt_of_pos _ (by norm_num)
    omega
  refine ⟨hidx, ?_, ?_⟩
  · have hlen : ZODIAC_SIGNS.length = 12 := by rfl
    have hget := List.getElem_mem (l := ZODIAC_SIGNS) (n := (⌊q / 30⌋ % 12).toNat)
      (by rw [hlen]; exact hidx)
    refine ⟨ZODIAC_SIGNS[(⌊q / 30⌋ % 12).toNat], ?_, hget⟩
    show ZODIAC_SIGNS.get? ((⌊q / 30⌋ % 12).toNat) = _
    rw [List.get?_eq_getElem?, List.getElem?_eq_getElem (by rw [hlen]; exact hidx)]
  · exact ⟨pmod q 30, rfl, pmod_nonneg q 30 (by norm_num), pmod_lt q 30 (by norm_num)⟩

/-- C9: for longitudes in `[0, 360)`, `angle_diff` agrees with the spec's
`angular_separation` formula and lies in `[0, 180]`; two bodies at 10° and
100° separate by exactly 90° and `compute_aspect` classifies them as a
square with orb 0. -/
theorem angle_diff_spec (a b : ℚ) (h0a : 0 ≤ a) (ha : a < 360) (h0b : 0 ≤ b)
    (hb : b < 360) :
    angle_diff a b = spec_angular_separation a b ∧
    0 ≤ angle_diff a b ∧ angle_diff a b ≤ 180 ∧
    angle_diff 10 100 = 90 ∧
    (compute_aspect "BodyA" 10 0 "BodyB" 100 0).map (fun r => (r.type, r.orb))
      = some ("square", 0) := by
  have habs : |a - b| < 360 := by
    rw [abs_sub_lt_iff]
    constructor <;> linarith
  have habs0 : 0 ≤ |a - b| := abs_nonneg _
  refine ⟨?_, ?_, ?_, ?_, ?_⟩
  · unfold angle_diff spec_angular_separation
    rw [pmod_eq_self _ _ habs0 habs]
  · unfold angle_diff
    split_ifs with h
    · linarith
    · exact habs0
  · unfold angle_diff
    split_ifs with h
    · linarith
    · linarith [not_lt.mp h]
  · norm_num [angle_diff]
  · norm_num [compute_aspect, aspect_scan, ASPECTS, angle_diff, ORB_MAX, BASE_POWER,
      orb_multiplier, harmonic_multiplier, star_mult, tno_mult, STAR_MULTIPLIER,
      TNO_MULTIPLIER, List.lookup, pmod, roundTo, roundHalfEven]

/-- C9 witness: the theorem instantiated at longitudes 10 and 100. -/
theorem angle_diff_spec_witness :
    angle_diff 10 100 = spec_angular_separation 10 100 ∧
    0 ≤ angle_diff 10 100 ∧ angle_diff 10 100 ≤ 180 ∧
    angle_diff 10 100 = 90 ∧
    (compute_aspect "BodyA" 10 0 "BodyB" 100 0).map (fun r => (r.type, r.orb))
      = some ("square", 0) :=
  angle_diff_spec 10 100 (by norm_num) (by norm_num) (by norm_num) (by norm_num)

/-- C6: `whole_sign_house` matches the spec formula
`(floor(lon/30) - floor(asc/30)) mod 12 + 1`, always lands in `{1,...,12}`,
and on the 12 sign-boundary cusps starting from the Ascendant's sign it
takes each house value `1..12` exactly once (`i`-th cusp maps to house
`i + 1`). -/
theorem whole_sign_house_spec (asc lon : ℚ) (i : ℤ) (h0a : 0 ≤ asc)
    (ha : asc < 360) (h0l : 0 ≤ lon) (hl : lon < 360) (h0i : 0 ≤ i) (hi : i < 12) :
    whole_sign_house lon asc = (⌊lon / 30⌋ - ⌊asc / 30⌋) % 12 + 1 ∧
    1 ≤ whole_sign_house lon asc ∧ whole_sign_house lon asc ≤ 12 ∧
    whole_sign_house (whole_sign_cusps asc (i + 1)) asc = i + 1 := by
  refine ⟨rfl, ?_, ?_, ?_⟩
  · unfold whole_sign_house
    have := Int.emod_nonneg (⌊lon / 30⌋ - ⌊asc / 30⌋) (show (12:ℤ) ≠ 0 by norm_num)
    omega
  · unfold whole_sign_house
    have := Int.emod_lt_of_pos (⌊lon / 30⌋ - ⌊asc / 30⌋) (show (0:ℤ) < 12 by norm_num)
    omega
  · unfold whole_sign_house whole_sign_cusps
    have hsimp : (i + 1 - 1) = i := by ring
    rw [hsimp]
    have hfl : ⌊((((⌊asc / 30⌋ + i) % 12) * 30 : ℤ) : ℚ) / 30⌋ = (⌊asc / 30⌋ + i) % 12 := by
      push_cast
      rw [mul_div_assoc, div_self (by norm_num : (30:ℚ) ≠ 0), mul_one]
      exact Int.floor_intCast _
    rw [hfl]
    omega

/-- C6 witness: the theorem instantiated at Ascendant 35°, body 95°, cusp
index 2. -/
theorem whole_sign_house_spec_witness :
    whole_sign_house 95 35 = (⌊(95:ℚ) / 30⌋ - ⌊(35:ℚ) / 30⌋) % 12 + 1 ∧
    1 ≤ whole_sign_house 95 35 ∧ whole_sign_house 95 35 ≤ 12 ∧
    whole_sign_house (whole_sign_cusps 35 (2 + 1)) 35 = 2 + 1 :=
  whole_sign_house_spec 35 95 2 (by norm_num) (by norm_num) (by norm_num)
    (by norm_num) (by norm_num) (by norm_num)

/-- Every record produced by the `aspect_scan` loop carries the scanned
aspect's angle in `exact`, its (rounded) orb in `orb`, and satisfies the
flat `ORB_MAX` admission bound. -/
theorem aspect_scan_bound (name_a name_b : String) (a_harm b_harm diff : ℚ) :
    ∀ (l : List (String × ℚ)) (rec : AspectRecord),
      aspect_scan name_a a_harm name_b b_harm diff l = some rec →
      |diff - rec.exact| ≤ ORB_MAX ∧ rec.orb = roundTo |diff - rec.exact| 2
  | [], rec => by simp [aspect_scan]
  | (asp_name, asp_angle) :: rest, rec => by
    simp only [aspect_scan]
    split_ifs with hc
    · intro h
      have hrec := (Option.some_injective _ h).symm
      subst hrec
      exact ⟨hc, rfl⟩
    · exact aspect_scan_bound name_a name_b a_harm b_harm diff rest rec

/-- C1 counterexample: two bodies in the spec's "all others" orb class
(tolerance 1° each, effective pair tolerance 1°) at 5° separation.
`compute_aspect` does produce a record, with orb 5 exceeding the class-based
maximum: the admission threshold in the code is the flat `ORB_MAX = 10`, not
`min(orb(a), orb(b))`. -/
theorem compute_aspect_ignores_orb_classes :
    (compute_aspect "Ceres" 0 0 "Vesta" 5 0).map (fun r => r.orb) = some 5 ∧
    spec_effective_tolerance "Ceres" "Vesta" = 1 ∧
    ¬ ((5 : ℚ) ≤ spec_effective_tolerance "Ceres" "Vesta") := by
  refine ⟨?_, ?_, ?_⟩
  · norm_num [compute_aspect, aspect_scan, ASPECTS, angle_diff, ORB_MAX, BASE_POWER,
      orb_multiplier, harmonic_multiplier, star_mult, tno_mult, STAR_MULTIPLIER,
      TNO_MULTIPLIER, List.lookup, pmod, roundTo, roundHalfEven]
  · simp [spec_effective_tolerance, spec_orb_class]
  · simp [spec_effective_tolerance, spec_orb_class]

/-- C1 (amended): `compute_aspect` produces an AspectRecord only when the orb
`|separation - aspect_angle|` does not exceed the flat per-pair maximum
`ORB_MAX = 10°`, which is independent of the body names; no record is
produced for a pair whose orb exceeds 10° at every canonical angle. -/
theorem compute_aspect_orb_bounded (name_a name_b : String) (a_lon a_harm b_lon b_harm : ℚ)
    (rec : AspectRecord)
    (h : compute_aspect name_a a_lon a_harm name_b b_lon b_harm = some rec) :
    |angle_diff a_lon b_lon - rec.exact| ≤ ORB_MAX ∧ rec.orb ≤ ORB_MAX := by
  have hb := aspect_scan_bound name_a name_b a_harm b_harm (angle_diff a_lon b_lon)
    ASPECTS rec h
  refine ⟨hb.1, ?_⟩
  rw [hb.2]
  have := roundTo_le |angle_diff a_lon b_lon - rec.exact| 10 (by exact_mod_cast hb.1)
  exact_mod_cast this

/-- C1 (amended) witness: the amended theorem instantiated at the
counterexample pair Ceres 0° / Vesta 5°. -/
theorem compute_aspect_orb_bounded_witness :
    |angle_diff 0 5 - (AspectRecord.mk "conjunction" 5 5 0 (7/10) 70).exact| ≤ ORB_MAX ∧
    (AspectRecord.mk "conjunction" 5 5 0 (7/10) 70).orb ≤ ORB_MAX :=
  compute_aspect_orb_bounded "Ceres" "Vesta" 0 0 5 0 _
    (by
      have hst : star_mult "Ceres" "Vesta" = 1 := by
        simp [star_mult, STAR_MULTIPLIER, List.lookup]
      have htn : tno_mult "Ceres" "Vesta" = 1 := by
        simp [tno_mult, TNO_MULTIPLIER, List.lookup]
      have hbp : (BASE_POWER.lookup "conjunction").getD 0 = 1.40 := by
        simp [BASE_POWER, List.lookup]
      norm_num [compute_aspect, aspect_scan, ASPECTS, angle_diff, ORB_MAX,
        orb_multiplier, harmonic_multiplier, hst, htn, hbp, pmod, roundTo,
        roundHalfEven])

/-- Both components of every pair enumerated by `body_pairs` are members of
the underlying list. -/
theorem body_pairs_mem {α : Type} :
    ∀ (l : List α) (p : α × α), p ∈ body_pairs l → p.1 ∈ l ∧ p.2 ∈ l
  | [], p => by simp [body_pairs]
  | x :: xs, p => by
    simp only [body_pairs, List.mem_append, List.mem_map]
    rintro (⟨y, hy, rfl⟩ | hrec)
    · exact ⟨List.mem_cons_self x xs, List.mem_cons_of_mem x hy⟩
    · have := body_pairs_mem xs p hrec
      exact ⟨List.mem_cons_of_mem x this.1, List.mem_cons_of_mem x this.2⟩

/-- The pair loop returns normally when every enumerated pair carries two
present longitudes. -/
theorem aspect_grid_loop_ok :
    ∀ (l : List ((String × BodyRec) × (String × BodyRec))),
      (∀ pr ∈ l, pr.1.2.lon.isSome = true ∧ pr.2.2.lon.isSome = true) →
      call_ok (aspect_grid_loop l) = true
  | [], _ => rfl
  | ((a, da), (b, db)) :: rest, h => by
    have hhead := h ((a, da), (b, db)) (List.mem_cons_self _ _)
    have h1 : da.lon.isSome = true := hhead.1
    have h2 : db.lon.isSome = true := hhead.2
    obtain ⟨la, hla⟩ := Option.isSome_iff_exists.mp h1
    obtain ⟨lb, hlb⟩ := Option.isSome_iff_exists.mp h2
    have htail := aspect_grid_loop_ok rest (fun pr hpr => h pr (List.mem_cons_of_mem _ hpr))
    cases heq : aspect_grid_loop rest with
    | error e => rw [heq] at htail; simp [call_ok] at htail
    | ok grid =>
      simp only [aspect_grid_loop, hla, hlb, heq]
      cases compute_aspect a la da.harmonics b lb db.harmonics with
      | none => rfl
      | some asp => rfl

/-- C2 counterexample: a two-body batch in which body "A" has a `None`
longitude.  `compute_all_aspects` does not skip "A": the first pairing
touches the `None` longitude and the `TypeError` raised inside `angle_diff`
aborts the whole call, instead of returning the grid of the remaining
bodies. -/
theorem compute_all_aspects_none_raises :
    compute_all_aspects [("A", ⟨none, 0⟩), ("B", ⟨some 0, 0⟩)]
      = .error "TypeError: unsupported operand type for NoneType" := by
  norm_num [compute_all_aspects, body_pairs, aspect_grid_loop]

/-- C2 (amended): `compute_all_aspects` does not tolerate missing
longitudes.  When every body of the batch carries a numeric longitude the
whole grid is computed and returned normally; but a body whose longitude is
`None` is not excluded from pairing — as soon as it enters a pair the
uncaught `TypeError` fails the whole batch (see the counterexample). -/
theorem compute_all_aspects_ok_of_lons (bodies : List (String × BodyRec))
    (h : ∀ p ∈ bodies, p.2.lon.isSome = true) :
    call_ok (compute_all_aspects bodies) = true := by
  unfold compute_all_aspects
  apply aspect_grid_loop_ok
  intro pr hpr
  have hm := body_pairs_mem bodies pr hpr
  exact ⟨h pr.1 hm.1, h pr.2 hm.2⟩

/-- C2 (amended) witness: a concrete two-body batch with both longitudes
present computes its grid without failing. -/
theorem compute_all_aspects_ok_of_lons_witness :
    call_ok (compute_all_aspects [("Sun", ⟨some 10, 0⟩), ("Moon", ⟨some 100, 3⟩)]) = true :=
  compute_all_aspects_ok_of_lons _ (by
    intro p hp
    simp only [List.mem_cons, List.mem_singleton] at hp
    rcases hp with rfl | rfl | h
    · rfl
    · rfl
    · cases h)

/-- The record projection `(type, exact)` of the `aspect_scan` loop is
exactly first-match search over the scanned list. -/
theorem aspect_scan_eq_find (name_a name_b : String) (a_harm b_harm diff : ℚ) :
    ∀ l : List (String × ℚ),
      (aspect_scan name_a a_harm name_b b_harm diff l).map (fun r => (r.type, r.exact))
        = l.find? (fun q => decide (|diff - q.2| ≤ ORB_MAX))
  | [] => rfl
  | (asp_name, asp_angle) :: rest => by
    by_cases hc : |diff - asp_angle| ≤ ORB_MAX
    · simp [aspect_scan, List.find?, hc]
    · simp [aspect_scan, List.find?, hc,
        aspect_scan_eq_find name_a name_b a_harm b_harm diff rest]

/-- Canonical aspect angles are at least 30° apart, so an angle within the
flat 10° tolerance beats every other canonical angle's orb. -/
theorem orb_dominates (d aj ak : ℚ) (hj : |d - aj| ≤ ORB_MAX)
    (hsep : 30 ≤ |aj - ak|) : |d - aj| ≤ |d - ak| := by
  have htri : |aj - ak| ≤ |aj - d| + |d - ak| := abs_sub_le aj d ak
  rw [abs_sub_comm aj d] at htri
  rw [show ORB_MAX = (10 : ℚ) from rfl] at hj
  linarith

/-- C5: whenever some canonical angle is within tolerance, `compute_aspect`
returns the record of the first angle in the order conjunction, sextile,
square, trine, opposition that meets the tolerance, and that angle's orb is
the smallest over the five canonical angles. -/
theorem compute_aspect_first_min (name_a name_b : String) (a_lon a_harm b_lon b_harm : ℚ)
    (h : ∃ p ∈ ASPECTS, |angle_diff a_lon b_lon - p.2| ≤ ORB_MAX) :
    (compute_aspect name_a a_lon a_harm name_b b_lon b_harm).map (fun r => (r.type, r.exact))
      = ASPECTS.find? (fun q => decide (|angle_diff a_lon b_lon - q.2| ≤ ORB_MAX)) ∧
    (compute_aspect name_a a_lon a_harm name_b b_lon b_harm).map
        (fun r => |angle_diff a_lon b_lon - r.exact|)
      = some (spec_min_orb (angle_diff a_lon b_lon)) := by
  have hbridge := aspect_scan_eq_find name_a name_b a_harm b_harm
    (angle_diff a_lon b_lon) ASPECTS
  refine ⟨hbridge, ?_⟩
  set d := angle_diff a_lon b_lon with hd
  -- name the first angle within tolerance, then evaluate the search
  have hcases :
      ∃ nk ak, ASPECTS.find? (fun q => decide (|d - q.2| ≤ ORB_MAX)) = some (nk, ak) ∧
        |d - ak| ≤ ORB_MAX ∧ spec_min_orb d = |d - ak| := by
    by_cases h0 : |d - 0| ≤ ORB_MAX
    · refine ⟨"conjunction", 0, ?_, h0, ?_⟩
      · have h0' : |d| ≤ ORB_MAX := by simpa using h0
        simp [ASPECTS, List.find?, h0']
      · unfold spec_min_orb
        have e60 := orb_dominates d 0 60 h0 (by norm_num)
        have e90 := orb_dominates d 0 90 h0 (by norm_num)
        have e120 := orb_dominates d 0 120 h0 (by norm_num)
        have e180 := orb_dominates d 0 180 h0 (by norm_num)
        apply le_antisymm
        · exact ((min_le_left _ _).trans ((min_le_left _ _).trans
            ((min_le_left _ _).trans (min_le_left _ _))))
        · exact le_min (le_min (le_min (le_min le_rfl e60) e90) e120) e180
    · by_cases h60 : |d - 60| ≤ ORB_MAX
      · refine ⟨"sextile", 60, ?_, h60, ?_⟩
        · have h0' : ¬ (|d| ≤ ORB_MAX) := by simpa using h0
          simp [ASPECTS, List.find?, h0', h60]
        · unfold spec_min_orb
          have e0 := orb_dominates d 60 0 h60 (by norm_num)
          have e90 := orb_dominates d 60 90 h60 (by norm_num)
          have e120 := orb_dominates d 60 120 h60 (by norm_num)
          have e180 := orb_dominates d 60 180 h60 (by norm_num)
          apply le_antisymm
          · exact ((min_le_left _ _).trans ((min_le_left _ _).trans
              ((min_le_left _ _).trans (min_le_right _ _))))
          · exact le_min (le_min (le_min (le_min e0 le_rfl) e90) e120) e180
      · by_cases h90 : |d - 90| ≤ ORB_MAX
        · refine ⟨"square", 90, ?_, h90, ?_⟩
          · have h0' : ¬ (|d| ≤ ORB_MAX) := by simpa using h0
            simp [ASPECTS, List.find?, h0', h60, h90]
          · unfold spec_min_orb
            have e0 := orb_dominates d 90 0 h90 (by norm_num)
            have e60 := orb_dominates d 90 60 h90 (by norm_num)
            have e120 := orb_dominates d 90 120 h90 (by norm_num)
            have e180 := orb_dominates d 90 180 h90 (by norm_num)
            apply le_antisymm
            · exact ((min_le_left _ _).trans ((min_le_left _ _).trans
                (min_le_right _ _)))
            · exact le_min (le_min (le_min (le_min e0 e60) le_rfl) e120) e180
        · by_cases h120 : |d - 120| ≤ ORB_MAX
          · refine ⟨"trine", 120, ?_, h120, ?_⟩
            · have h0' : ¬ (|d| ≤ ORB_MAX) := by simpa using h0
              simp [ASPECTS, List.find?, h0', h60, h90, h120]
            · unfold spec_min_orb
              have e0 := orb_dominates d 120 0 h120 (by norm_num)
              have e60 := orb_dominates d 120 60 h120 (by norm_num)
              have e90 := orb_dominates d 120 90 h120 (by norm_num)
              have e180 := orb_dominates d 120 180 h120 (by norm_num)
              apply le_antisymm
              · exact ((min_le_left _ _).trans (min_le_right _ _))
              · exact le_min (le_min (le_min (le_min e0 e60) e90) le_rfl) e180
          · by_cases h180 : |d - 180| ≤ ORB_MAX
            · refine ⟨"opposition", 180, ?_, h180, ?_⟩
              · have h0' : ¬ (|d| ≤ ORB_MAX) := by simpa using h0
                simp [ASPECTS, List.find?, h0', h60, h90, h120, h180]
              · unfold spec_min_orb
                have e0 := orb_dominates d 180 0 h180 (by norm_num)
                have e60 := orb_dominates d 180 60 h180 (by norm_num)
                have e90 := orb_dominates d 180 90 h180 (by norm_num)
                have e120 := orb_dominates d 180 120 h180 (by norm_num)
                apply le_antisymm
                · exact min_le_right _ _
                · exact le_min (le_min (le_min (le_min e0 e60) e90) e120) le_rfl
            · exfalso
              obtain ⟨p, hp, hple⟩ := h
              simp only [ASPECTS, List.mem_cons, List.not_mem_nil, or_false] at hp
              rcases hp with rfl | rfl | rfl | rfl | rfl
              · exact h0 hple
              · exact h60 hple
              · exact h90 hple
              · exact h120 hple
              · exact h180 hple
  obtain ⟨nk, ak, hfind, _, hmin⟩ := hcases
  rw [hfind] at hbridge
  obtain ⟨rec, hrec, hpair⟩ := Option.map_eq_some'.mp hbridge
  have hexact : rec.exact = ak := (Prod.mk.injEq _ _ _ _).mp hpair |>.2
  show Option.map (fun r => |d - r.exact|)
      (aspect_scan name_a a_harm name_b b_harm d ASPECTS) = some (spec_min_orb d)
  rw [hrec]
  simp only [Option.map_some']
  rw [hexact, hmin]

/-- C5 witness: two bodies at 0° and 65° (sextile, orb 5°). -/
theorem compute_aspect_first_min_witness :
    (compute_aspect "AsterA" 0 0 "AsterB" 65 0).map (fun r => (r.type, r.exact))
      = ASPECTS.find? (fun q => decide (|angle_diff 0 65 - q.2| ≤ ORB_MAX)) ∧
    (compute_aspect "AsterA" 0 0 "AsterB" 65 0).map
        (fun r => |angle_diff 0 65 - r.exact|)
      = some (spec_min_orb (angle_diff 0 65)) :=
  compute_aspect_first_min "AsterA" "AsterB" 0 0 65 0
    ⟨("sextile", 60), by simp [ASPECTS], by norm_num [angle_diff, ORB_MAX]⟩

/-- `rad2deg` output is always a normalized longitude. -/
theorem rad2deg_bounds (r : ℝ) : 0 ≤ rad2deg r ∧ rad2deg r < 360 :=
  ⟨rpmod_nonneg _ _ (by norm_num), rpmod_lt _ _ (by norm_num)⟩

/-- `gmst` output is always in `[0, 360)`. -/
theorem gmst_bounds (jd : ℚ) : 0 ≤ gmst jd ∧ gmst jd < 360 := by
  simp only [gmst]
  exact ⟨pmod_nonneg _ _ (by norm_num), pmod_lt _ _ (by norm_num)⟩

/-- `local_sidereal_time` output is always in `[0, 360)`. -/
theorem lst_bounds (jd lon : ℚ) :
    0 ≤ local_sidereal_time jd lon ∧ local_sidereal_time jd lon < 360 := by
  simp only [local_sidereal_time]
  exact ⟨pmod_nonneg _ _ (by norm_num), pmod_lt _ _ (by norm_num)⟩

/-- `compute_mc` output is always in `[0, 360)`. -/
theorem compute_mc_bounds (jd lon : ℚ) :
    0 ≤ compute_mc jd lon ∧ compute_mc jd lon < 360 := by
  simp only [compute_mc]
  exact rad2deg_bounds _

/-- Each intermediate Placidus cusp is a `rad2deg` value, hence in `[0, 360)`. -/
theorem placidus_intermediate_bounds (angle : ℝ) :
    0 ≤ placidus_intermediate angle ∧ placidus_intermediate angle < 360 := by
  simp only [placidus_intermediate]
  exact rad2deg_bounds _

/-- Every Placidus cusp (houses 1..12) lies in `[0, 360)`. -/
theorem placidus_cusps_bounds (jd lat lon : ℚ) (hs : ℤ) (h1 : 1 ≤ hs) (h2 : hs ≤ 12) :
    0 ≤ placidus_cusps jd lat lon hs ∧ placidus_cusps jd lat lon hs < 360 := by
  have hmc := compute_mc_bounds jd lon
  have hrp : ∀ x : ℝ, 0 ≤ rpmod x 360 ∧ rpmod x 360 < 360 :=
    fun x => ⟨rpmod_nonneg _ _ (by norm_num), rpmod_lt _ _ (by norm_num)⟩
  interval_cases hs
  · have he : placidus_cusps jd lat lon 1
        = placidus_intermediate (deg_to_rad (compute_mc jd lon) + Real.pi / 2) := by
      norm_num [placidus_cusps]
    rw [he]; exact placidus_intermediate_bounds _
  · have he : placidus_cusps jd lat lon 2
        = placidus_intermediate (deg_to_rad (compute_mc jd lon) + 2 * Real.pi / 3) := by
      norm_num [placidus_cusps]
    rw [he]; exact placidus_intermediate_bounds _
  · have he : placidus_cusps jd lat lon 3
        = placidus_intermediate (deg_to_rad (compute_mc jd lon) + 5 * Real.pi / 6) := by
      norm_num [placidus_cusps]
    rw [he]; exact placidus_intermediate_bounds _
  · have he : placidus_cusps jd lat lon 4
        = rpmod (compute_mc jd lon + 180) 360 := by
      norm_num [placidus_cusps]
    rw [he]; exact hrp _
  · have he : placidus_cusps jd lat lon 5
        = rpmod (placidus_intermediate (deg_to_rad (compute_mc jd lon) + Real.pi / 6) + 180) 360 := by
      norm_num [placidus_cusps]
    rw [he]; exact hrp _
  · have he : placidus_cusps jd lat lon 6
        = rpmod (placidus_intermediate (deg_to_rad (compute_mc jd lon) + Real.pi / 3) + 180) 360 := by
      norm_num [placidus_cusps]
    rw [he]; exact hrp _
  · have he : placidus_cusps jd lat lon 7
        = rpmod (placidus_intermediate (deg_to_rad (compute_mc jd lon) + Real.pi / 2) + 180) 360 := by
      norm_num [placidus_cusps]
    rw [he]; exact hrp _
  · have he : placidus_cusps jd lat lon 8
        = rpmod (placidus_intermediate (deg_to_rad (compute_mc jd lon) + 2 * Real.pi / 3) + 180) 360 := by
      norm_num [placidus_cusps]
    rw [he]; exact hrp _
  · have he : placidus_cusps jd lat lon 9
        = rpmod (placidus_intermediate (deg_to_rad (compute_mc jd lon) + 5 * Real.pi / 6) + 180) 360 := by
      norm_num [placidus_cusps]
    rw [he]; exact hrp _
  · have he : placidus_cusps jd lat lon 10 = compute_mc jd lon := by
      norm_num [placidus_cusps]
    rw [he]; exact hmc
  · have he : placidus_cusps jd lat lon 11
        = placidus_intermediate (deg_to_rad (compute_mc jd lon) + Real.pi / 6) := by
      norm_num [placidus_cusps]
    rw [he]; exact placidus_intermediate_bounds _
  · have he : placidus_cusps jd lat lon 12
        = placidus_intermediate (deg_to_rad (compute_mc jd lon) + Real.pi / 3) := by
      norm_num [placidus_cusps]
    rw [he]; exact placidus_intermediate_bounds _

/-- C7: every longitude produced by a core function lies in `[0, 360)`: the
ecliptic longitude of `equatorial_to_ecliptic`, the right ascension of
`ecliptic_to_equatorial`, GMST, local sidereal time, the Ascendant, the
Midheaven, every whole-sign cusp, every Placidus cusp, and every harmonic
longitude. -/
theorem longitudes_normalized (ra dec ob lon lat : ℝ) (jd olat olon asc q n x : ℚ)
    (hs : ℤ) (hs1 : 1 ≤ hs) (hs2 : hs ≤ 12)
    (hharm : harmonics (.num q) n = some x) :
    (0 ≤ (equatorial_to_ecliptic ra dec ob).1 ∧ (equatorial_to_ecliptic ra dec ob).1 < 360) ∧
    (0 ≤ (ecliptic_to_equatorial lon lat ob).1 ∧ (ecliptic_to_equatorial lon lat ob).1 < 360) ∧
    (0 ≤ gmst jd ∧ gmst jd < 360) ∧
    (0 ≤ local_sidereal_time jd olon ∧ local_sidereal_time jd olon < 360) ∧
    (0 ≤ compute_ascendant jd olat olon ∧ compute_ascendant jd olat olon < 360) ∧
    (0 ≤ compute_mc jd olon ∧ compute_mc jd olon < 360) ∧
    (0 ≤ whole_sign_cusps asc hs ∧ whole_sign_cusps asc hs < 360) ∧
    (0 ≤ placidus_cusps jd olat olon hs ∧ placidus_cusps jd olat olon hs < 360) ∧
    (0 ≤ x ∧ x < 360) := by
  refine ⟨?_, ?_, gmst_bounds jd, lst_bounds jd olon, ?_, compute_mc_bounds jd olon,
    ?_, placidus_cusps_bounds jd olat olon hs hs1 hs2, ?_⟩
  · simp only [equatorial_to_ecliptic]
    exact ⟨rpmod_nonneg _ _ (by norm_num), rpmod_lt _ _ (by norm_num)⟩
  · simp only [ecliptic_to_equatorial]
    exact ⟨rpmod_nonneg _ _ (by norm_num), rpmod_lt _ _ (by norm_num)⟩
  · simp only [compute_ascendant]
    exact rad2deg_bounds _
  · simp only [whole_sign_cusps]
    have hlo := Int.emod_nonneg (⌊asc / 30⌋ + (hs - 1)) (show (12:ℤ) ≠ 0 by norm_num)
    have hhi := Int.emod_lt_of_pos (⌊asc / 30⌋ + (hs - 1)) (show (0:ℤ) < 12 by norm_num)
    constructor
    · push_cast
      have : (0:ℚ) ≤ ((⌊asc / 30⌋ + (hs - 1)) % 12 : ℤ) := by exact_mod_cast hlo
      nlinarith
    · push_cast
      have : ((⌊asc / 30⌋ + (hs - 1)) % 12 : ℤ) ≤ 11 := by omega
      have hq : (((⌊asc / 30⌋ + (hs - 1)) % 12 : ℤ) : ℚ) ≤ 11 := by exact_mod_cast this
      nlinarith
  · simp only [harmonics] at hharm
    obtain rfl := Option.some_inj.mp hharm
    exact ⟨pmod_nonneg _ _ (by norm_num), pmod_lt _ _ (by norm_num)⟩

/-- C7 witness: the theorem instantiated at concrete inputs (house 10,
harmonic call `harmonics(5, 2) = 10`). -/
theorem longitudes_normalized_witness :
    (0 ≤ (equatorial_to_ecliptic 10 20 23.439281).1 ∧
      (equatorial_to_ecliptic 10 20 23.439281).1 < 360) ∧
    (0 ≤ (ecliptic_to_equatorial 40 5 23.439281).1 ∧
      (ecliptic_to_equatorial 40 5 23.439281).1 < 360) ∧
    (0 ≤ gmst 2451545 ∧ gmst 2451545 < 360) ∧
    (0 ≤ local_sidereal_time 2451545 0 ∧ local_sidereal_time 2451545 0 < 360) ∧
    (0 ≤ compute_ascendant 2451545 (51.4769 : ℚ) 0 ∧
      compute_ascendant 2451545 (51.4769 : ℚ) 0 < 360) ∧
    (0 ≤ compute_mc 2451545 0 ∧ compute_mc 2451545 0 < 360) ∧
    (0 ≤ whole_sign_cusps 35 10 ∧ whole_sign_cusps 35 10 < 360) ∧
    (0 ≤ placidus_cusps 2451545 (51.4769 : ℚ) 0 10 ∧
      placidus_cusps 2451545 (51.4769 : ℚ) 0 10 < 360) ∧
    (0 ≤ (10 : ℚ) ∧ (10 : ℚ) < 360) :=
  longitudes_normalized 10 20 23.439281 40 5 2451545 (51.4769 : ℚ) 0 35 5 2 10 10
    (by norm_num) (by norm_num) (by norm_num [harmonics, pmod])

/-- `atan2 0 x = pi` for negative `x` (the negative real axis). -/
theorem atan2_zero_neg (x : ℝ) (hx : x < 0) : atan2 0 x = Real.pi := by
  unfold atan2
  rw [if_neg (by linarith), if_pos hx, if_pos (le_refl 0), zero_div,
    Real.arctan_zero, zero_add]

/-- `atan2` of a third-quadrant point lies in `(-pi, -pi/2)`. -/
theorem atan2_neg_neg (y x : ℝ) (hy : y < 0) (hx : x < 0) :
    -Real.pi < atan2 y x ∧ atan2 y x < -(Real.pi / 2) := by
  unfold atan2
  rw [if_neg (by linarith), if_pos hx, if_neg (by linarith)]
  have harc : 0 < Real.arctan (y / x) := by
    have h := Real.arctan_strictMono (div_pos_of_neg_of_neg hy hx)
    rwa [Real.arctan_zero] at h
  have harc2 : Real.arctan (y / x) < Real.pi / 2 := Real.arctan_lt_pi_div_two _
  constructor <;> linarith

/-- A `rad2deg` of a principal-branch arctangent always lands in
`[0°, 90°) ∪ (270°, 360°)`: the quadrant information is lost. -/
theorem rad2deg_arctan_mem (v : ℝ) :
    0 ≤ rad2deg (Real.arctan v) ∧
    (rad2deg (Real.arctan v) < 90 ∨
      (270 < rad2deg (Real.arctan v) ∧ rad2deg (Real.arctan v) < 360)) := by
  have hlt := Real.arctan_lt_pi_div_two v
  have hgt := Real.neg_pi_div_two_lt_arctan v
  have hpi := Real.pi_pos
  have hdeg_lt : rad_to_deg (Real.arctan v) < 90 := by
    unfold rad_to_deg
    rw [div_lt_iff₀ hpi]
    nlinarith
  have hdeg_gt : -90 < rad_to_deg (Real.arctan v) := by
    unfold rad_to_deg
    rw [lt_div_iff₀ hpi]
    nlinarith
  rcases le_or_lt 0 (rad_to_deg (Real.arctan v)) with h0 | h0
  · have heq := rpmod_eq_self (rad_to_deg (Real.arctan v)) 360 h0 (by linarith)
    unfold rad2deg
    rw [heq]
    exact ⟨h0, Or.inl hdeg_lt⟩
  · have heq := rpmod_of_neg (rad_to_deg (Real.arctan v)) 360 (by norm_num)
      (by linarith) h0
    unfold rad2deg
    rw [heq]
    exact ⟨by linarith, Or.inr ⟨by linarith, by linarith⟩⟩

/-- C3 (amended): `placidus_cusps` computes cusp 10 as the Midheaven and
cusps 4..9 as the `(+180° mod 360)` reflections of cusps 10, 11, 12, 1, 2, 3;
but cusps 11, 12, 1, 2, 3 are obtained by adding 30°..150° to the MC's
*ecliptic longitude* and converting with the principal-branch
`atan(tan(RA)·cos ε)` — not the quadrant-correct `atan2` rotation of the
coordinate component — so each of these five cusps always lies in
`[0°, 90°) ∪ (270°, 360°)` regardless of the inputs. -/
theorem placidus_cusps_structure (jd lat lon : ℚ) (hs : ℤ)
    (hmem : hs = 11 ∨ hs = 12 ∨ hs = 1 ∨ hs = 2 ∨ hs = 3) :
    placidus_cusps jd lat lon 10 = compute_mc jd lon ∧
    (0 ≤ placidus_cusps jd lat lon hs ∧
      (placidus_cusps jd lat lon hs < 90 ∨
        (270 < placidus_cusps jd lat lon hs ∧ placidus_cusps jd lat lon hs < 360))) ∧
    placidus_cusps jd lat lon 4 = rpmod (placidus_cusps jd lat lon 10 + 180) 360 ∧
    placidus_cusps jd lat lon 5 = rpmod (placidus_cusps jd lat lon 11 + 180) 360 ∧
    placidus_cusps jd lat lon 6 = rpmod (placidus_cusps jd lat lon 12 + 180) 360 ∧
    placidus_cusps jd lat lon 7 = rpmod (placidus_cusps jd lat lon 1 + 180) 360 ∧
    placidus_cusps jd lat lon 8 = rpmod (placidus_cusps jd lat lon 2 + 180) 360 ∧
    placidus_cusps jd lat lon 9 = rpmod (placidus_cusps jd lat lon 3 + 180) 360 := by
  have h10 : placidus_cusps jd lat lon 10 = compute_mc jd lon := by
    norm_num [placidus_cusps]
  have hinter : ∀ a : ℝ, 0 ≤ placidus_intermediate a ∧
      (placidus_intermediate a < 90 ∨
        (270 < placidus_intermediate a ∧ placidus_intermediate a < 360)) := by
    intro a
    simp only [placidus_intermediate]
    exact rad2deg_arctan_mem _
  refine ⟨h10, ?_, ?_, ?_, ?_, ?_, ?_, ?_⟩
  · rcases hmem with rfl | rfl | rfl | rfl | rfl
    · have he : placidus_cusps jd lat lon 11
          = placidus_intermediate (deg_to_rad (compute_mc jd lon) + Real.pi / 6) := by
        norm_num [placidus_cusps]
      rw [he]; exact hinter _
    · have he : placidus_cusps jd lat lon 12
          = placidus_intermediate (deg_to_rad (compute_mc jd lon) + Real.pi / 3) := by
        norm_num [placidus_cusps]
      rw [he]; exact hinter _
    · have he : placidus_cusps jd lat lon 1
          = placidus_intermediate (deg_to_rad (compute_mc jd lon) + Real.pi / 2) := by
        norm_num [placidus_cusps]
      rw [he]; exact hinter _
    · have he : placidus_cusps jd lat lon 2
          = placidus_intermediate (deg_to_rad (compute_mc jd lon) + 2 * Real.pi / 3) := by
        norm_num [placidus_cusps]
      rw [he]; exact hinter _
    · have he : placidus_cusps jd lat lon 3
          = placidus_intermediate (deg_to_rad (compute_mc jd lon) + 5 * Real.pi / 6) := by
        norm_num [placidus_cusps]
      rw [he]; exact hinter _
  · rw [h10]; norm_num [placidus_cusps]
  · have he : placidus_cusps jd lat lon 11
        = placidus_intermediate (deg_to_rad (compute_mc jd lon) + Real.pi / 6) := by
      norm_num [placidus_cusps]
    rw [he]; norm_num [placidus_cusps]
  · have he : placidus_cusps jd lat lon 12
        = placidus_intermediate (deg_to_rad (compute_mc jd lon) + Real.pi / 3) := by
      norm_num [placidus_cusps]
    rw [he]; norm_num [placidus_cusps]
  · have he : placidus_cusps jd lat lon 1
        = placidus_intermediate (deg_to_rad (compute_mc jd lon) + Real.pi / 2) := by
      norm_num [placidus_cusps]
    rw [he]; norm_num [placidus_cusps]
  · have he : placidus_cusps jd lat lon 2
        = placidus_intermediate (deg_to_rad (compute_mc jd lon) + 2 * Real.pi / 3) := by
      norm_num [placidus_cusps]
    rw [he]; norm_num [placidus_cusps]
  · have he : placidus_cusps jd lat lon 3
        = placidus_intermediate (deg_to_rad (compute_mc jd lon) + 5 * Real.pi / 6) := by
      norm_num [placidus_cusps]
    rw [he]; norm_num [placidus_cusps]

/-- C3 (amended) witness: the amended theorem instantiated at J2000, the
Greenwich meridian, and cusp 11. -/
theorem placidus_cusps_structure_witness :
    placidus_cusps 2451545 (51.4769 : ℚ) 0 10 = compute_mc 2451545 0 ∧
    (0 ≤ placidus_cusps 2451545 (51.4769 : ℚ) 0 11 ∧
      (placidus_cusps 2451545 (51.4769 : ℚ) 0 11 < 90 ∨
        (270 < placidus_cusps 2451545 (51.4769 : ℚ) 0 11 ∧
          placidus_cusps 2451545 (51.4769 : ℚ) 0 11 < 360))) ∧
    placidus_cusps 2451545 (51.4769 : ℚ) 0 4
      = rpmod (placidus_cusps 2451545 (51.4769 : ℚ) 0 10 + 180) 360 ∧
    placidus_cusps 2451545 (51.4769 : ℚ) 0 5
      = rpmod (placidus_cusps 2451545 (51.4769 : ℚ) 0 11 + 180) 360 ∧
    placidus_cusps 2451545 (51.4769 : ℚ) 0 6
      = rpmod (placidus_cusps 2451545 (51.4769 : ℚ) 0 12 + 180) 360 ∧
    placidus_cusps 2451545 (51.4769 : ℚ) 0 7
      = rpmod (placidus_cusps 2451545 (51.4769 : ℚ) 0 1 + 180) 360 ∧
    placidus_cusps 2451545 (51.4769 : ℚ) 0 8
      = rpmod (placidus_cusps 2451545 (51.4769 : ℚ) 0 2 + 180) 360 ∧
    placidus_cusps 2451545 (51.4769 : ℚ) 0 9
      = rpmod (placidus_cusps 2451545 (51.4769 : ℚ) 0 3 + 180) 360 :=
  placidus_cusps_structure 2451545 (51.4769 : ℚ) 0 11 (Or.inl rfl)

/-- The houses.py obliquity constant, in radians, has positive cosine. -/
theorem cos_obliq_pos : 0 < Real.cos (deg_to_rad ((OBLIQUITY_HOUSES : ℚ) : ℝ)) := by
  have hpi := Real.pi_pos
  have hval : ((OBLIQUITY_HOUSES : ℚ) : ℝ) = 23.439291 := by norm_num [OBLIQUITY_HOUSES]
  apply Real.cos_pos_of_mem_Ioo
  apply Set.mem_Ioo.mpr
  constructor
  · simp only [deg_to_rad, hval]
    have h1 : (0:ℝ) < 23.439291 * Real.pi / 180 := by positivity
    linarith
  · simp only [deg_to_rad, hval]
    linarith

/-- At JD 2451545 and observer longitude `-10.46061837°` the local sidereal
time is exactly 270° (pure rational arithmetic). -/
theorem lst270 : local_sidereal_time 2451545 (-10.46061837) = 270 := by
  norm_num [local_sidereal_time, gmst, pmod]

/-- At that instant and longitude the Midheaven is exactly 180°. -/
theorem mc_at_lst270 : compute_mc 2451545 (-10.46061837) = 180 := by
  have hpi := Real.pi_pos
  have hlstr : deg_to_rad ((local_sidereal_time 2451545 (-10.46061837) : ℚ) : ℝ)
      = 3 * Real.pi / 2 := by
    rw [lst270]
    simp only [deg_to_rad]
    push_cast
    ring
  have hcos32 : Real.cos (3 * Real.pi / 2) = 0 := by
    rw [show (3:ℝ) * Real.pi / 2 = Real.pi / 2 + Real.pi by ring, Real.cos_add_pi,
      Real.cos_pi_div_two, neg_zero]
  have hsin32 : Real.sin (3 * Real.pi / 2) = -1 := by
    rw [show (3:ℝ) * Real.pi / 2 = Real.pi / 2 + Real.pi by ring, Real.sin_add_pi,
      Real.sin_pi_div_two]
  simp only [compute_mc]
  rw [hlstr, hcos32, hsin32]
  have hxneg : (-1 : ℝ) * Real.cos (deg_to_rad ((OBLIQUITY_HOUSES : ℚ) : ℝ)) < 0 := by
    nlinarith [cos_obliq_pos]
  rw [atan2_zero_neg _ hxneg]
  simp only [rad2deg, rad_to_deg]
  rw [show Real.pi * 180 / Real.pi = 180 by field_simp]
  exact rpmod_eq_self 180 360 (by norm_num) (by norm_num)

/-- The code's cusp 11 at that instant: the principal-branch arctangent puts
it below 90° although the source right ascension 210° is in the third
quadrant. -/
theorem cusp11_at_lst270_lt : placidus_cusps 2451545 0 (-10.46061837) 11 < 90 := by
  have hpi := Real.pi_pos
  have he : placidus_cusps 2451545 0 (-10.46061837) 11
      = placidus_intermediate
          (deg_to_rad (compute_mc 2451545 (-10.46061837)) + Real.pi / 6) := by
    norm_num [placidus_cusps]
  rw [he, mc_at_lst270]
  have hdr : deg_to_rad (180 : ℝ) = Real.pi := by
    simp only [deg_to_rad]; ring
  rw [hdr]
  simp only [placidus_intermediate]
  have hra : rpmod (Real.pi + Real.pi / 6) (2 * Real.pi) = Real.pi + Real.pi / 6 :=
    rpmod_eq_self _ _ (by positivity) (by linarith)
  rw [hra]
  have htan : Real.tan (Real.pi + Real.pi / 6) = Real.tan (Real.pi / 6) := by
    rw [add_comm]; exact Real.tan_periodic (Real.pi / 6)
  rw [htan]
  set v := Real.tan (Real.pi / 6) * Real.cos (deg_to_rad ((OBLIQUITY_HOUSES : ℚ) : ℝ))
    with hv
  have htanpos : 0 < Real.tan (Real.pi / 6) :=
    Real.tan_pos_of_pos_of_lt_pi_div_two (by positivity) (by linarith)
  have hvpos : 0 < v := mul_pos htanpos cos_obliq_pos
  have harc1 : 0 < Real.arctan v := by
    have h := Real.arctan_strictMono hvpos
    rwa [Real.arctan_zero] at h
  have harc2 : Real.arctan v < Real.pi / 2 := Real.arctan_lt_pi_div_two _
  simp only [rad2deg, rad_to_deg]
  have hdeg1 : 0 ≤ Real.arctan v * 180 / Real.pi := by positivity
  have hdeg2 : Real.arctan v * 180 / Real.pi < 90 := by
    rw [div_lt_iff₀ hpi]
    nlinarith
  rw [rpmod_eq_self _ _ hdeg1 (by linarith)]
  exact hdeg2

/-- The spec's rotation applied to the same right ascension 210° yields a
value beyond 180° (third quadrant handled by atan2). -/
theorem spec_rotation_at_lst270_gt :
    180 < spec_ecliptic_of_ra (Real.pi + Real.pi / 6)
      (deg_to_rad ((OBLIQUITY_HOUSES : ℚ) : ℝ)) := by
  have hpi := Real.pi_pos
  simp only [spec_ecliptic_of_ra]
  have hsin : Real.sin (Real.pi + Real.pi / 6) = -(1 / 2) := by
    rw [add_comm, Real.sin_add_pi, Real.sin_pi_div_six]
  have hcos : Real.cos (Real.pi + Real.pi / 6) = -(Real.sqrt 3 / 2) := by
    rw [add_comm, Real.cos_add_pi, Real.cos_pi_div_six]
  rw [hsin, hcos]
  have hy : -(1 / 2) * Real.cos (deg_to_rad ((OBLIQUITY_HOUSES : ℚ) : ℝ)) < 0 := by
    nlinarith [cos_obliq_pos]
  have hx : -(Real.sqrt 3 / 2) < 0 := by
    have h3 : 0 < Real.sqrt 3 := Real.sqrt_pos.mpr (by norm_num)
    linarith
  obtain ⟨hb1, hb2⟩ := atan2_neg_neg _ _ hy hx
  set t := atan2 (-(1 / 2) * Real.cos (deg_to_rad ((OBLIQUITY_HOUSES : ℚ) : ℝ)))
    (-(Real.sqrt 3 / 2)) with ht
  have hdeg1 : -180 < rad_to_deg t := by
    simp only [rad_to_deg]
    rw [lt_div_iff₀ hpi]
    nlinarith
  have hdeg2 : rad_to_deg t < -90 := by
    simp only [rad_to_deg]
    rw [div_lt_iff₀ hpi]
    nlinarith
  rw [rpmod_of_neg _ _ (by norm_num) (by linarith) (by linarith)]
  linarith

/-- C3 counterexample: at JD 2451545, latitude 0, observer longitude
`-10.46061837°` (local sidereal time exactly 270°, MC exactly 180°), the
code's Placidus cusp 11 differs from the spec's conversion of the offset
right ascension `MC + 30°` through the section-4.1 obliquity rotation: the
code's `atan`-based value is below 90° while the quadrant-correct rotation
gives a value beyond 180°.  So cusps 11, 12, 1, 2, 3 are *not* obtained
"through the same obliquity rotation as the coordinate component". -/
theorem placidus_cusp11_not_spec_rotation :
    placidus_cusps 2451545 0 (-10.46061837) 11
      ≠ spec_ecliptic_of_ra
          (deg_to_rad (placidus_cusps 2451545 0 (-10.46061837) 10) + Real.pi / 6)
          (deg_to_rad ((OBLIQUITY_HOUSES : ℚ) : ℝ)) := by
  have h10 : placidus_cusps 2451545 0 (-10.46061837) 10
      = compute_mc 2451545 (-10.46061837) := by
    norm_num [placidus_cusps]
  rw [h10, mc_at_lst270]
  have hdr : deg_to_rad (180 : ℝ) = Real.pi := by
    simp only [deg_to_rad]; ring
  rw [hdr]
  have h1 := cusp11_at_lst270_lt
  have h2 := spec_rotation_at_lst270_gt
  intro heq
  rw [heq] at h1
  linarith
